import Mathlib

/-!
Shallow embedding of the credential & token lifecycle engine of a
FastAPI/SQLModel authentication service: user and password-reset-token
records, credential authentication, JWT session tokens, CSRF
double-submit verification, the forgot-password / reset-password
handlers, profile update, and the per-endpoint rate limits.

Times are modelled as `Int` seconds; the database is a pair of lists of
records; randomness (the raw reset secret) and the clock are explicit
parameters.
-/

/-- User record, from `app/models.py` class `User` (timestamps omitted:
no claim depends on them). -/
structure User where
  id : Nat
  email : String
  full_name : String
  hashed_password : String
  is_active : Bool
  is_superuser : Bool
  deriving Repr, DecidableEq

/-- Password-reset token record, from `app/models.py` class
`PasswordResetToken`. -/
structure PasswordResetToken where
  id : Nat
  user_id : Nat
  token_hash : String
  expires_at : Int
  used_at : Option Int
  created_at : Int
  deriving Repr, DecidableEq

/-- The persistent store: the `user` and `passwordresettoken` tables. -/
structure DbState where
  users : List User
  tokens : List PasswordResetToken
  deriving Repr, DecidableEq

/-- Python truthiness of an optional string: `None` and the empty string
are falsy. -/
def pyTruthy : Option String → Bool
  | none => false
  | some s => s ≠ ""

/-- Modelled from the spec: `hashlib.sha256(s.encode()).hexdigest()`
(`app/security.py` `sha256_hex`). The spec calls it a one-way hash of
the secret; it is modelled as an injective tag that is never equal to
its input. -/
def sha256_hex (s : String) : String := "sha256." ++ s

/-- Modelled from the spec: `passlib` bcrypt hashing
(`app/login_manager.py` `get_password_hash`). Salting is not modelled;
no claim proved here depends on hash nondeterminism. -/
def get_password_hash (password : String) : String := "bcrypt." ++ password

/-- Modelled from the spec: `passlib` bcrypt verification
(`app/login_manager.py` `verify_password`). -/
def verify_password (plain hashed : String) : Bool :=
  hashed == get_password_hash plain

/-- Lookup `select(User).where(User.email == email)).first()`. -/
def findUserByEmail (users : List User) (email : String) : Option User :=
  users.find? (fun u => u.email == email)

/-- Lookup of a user by primary key: `session.get(User, uid)`. -/
def getUserById (users : List User) (uid : Nat) : Option User :=
  users.find? (fun u => u.id == uid)

/-- Authentication, from `app/login_manager.py` `authenticate_user`:
look up by email; absent, wrong password, or inactive all yield `none`;
otherwise the full user record. -/
def authenticate_user (users : List User) (email password : String) :
    Option User :=
  match findUserByEmail users email with
  | none => none
  | some user =>
    if ¬ verify_password password user.hashed_password then none
    else if ¬ user.is_active then none
    else some user

/-- Payload of a session token: subject claim and expiry claim. -/
structure JwtPayload where
  sub : String
  exp : Int
  deriving Repr, DecidableEq

/-- A wire token: either a well-formed structure signed with some key,
or structurally malformed input. -/
inductive Jwt where
  | signed (payload : JwtPayload) (key : String)
  | malformed (raw : String)
  deriving Repr, DecidableEq

/-- Modelled from the spec: `jose.jwt.encode` — signs the claims with
the server secret (spec section 4.2, symmetric MAC scheme). -/
def jwtEncode (payload : JwtPayload) (key : String) : Jwt :=
  .signed payload key

/-- Modelled from the spec: `jose.jwt.decode` — per spec section 4.2 it
fails (and the caller `decode_token` returns `none`) on signature
mismatch, structurally malformed input, or an expiry timestamp at or
before verification time. -/
def jwtDecode (token : Jwt) (key : String) (now : Int) :
    Option JwtPayload :=
  match token with
  | .malformed _ => none
  | .signed p k => if k == key ∧ now < p.exp then some p else none

/-- Default token lifetime, minutes:
`Settings.access_token_expire_minutes` in `app/config.py`. -/
def access_token_expire_minutes : Int := 30

/-- Token minting, from `app/security.py` `create_access_token`: expiry
is now plus the given delta, defaulting to the configured minutes. -/
def create_access_token (sub : String) (expires_delta : Option Int)
    (now : Int) (secret : String) : Jwt :=
  let expire : Int :=
    match expires_delta with
    | some d => now + d
    | none => now + 60 * access_token_expire_minutes
  jwtEncode ⟨sub, expire⟩ secret

/-- Token parsing, from `app/security.py` `decode_token`: the payload on
success, `none` on any `JWTError`. -/
def decode_token (token : Jwt) (now : Int) (secret : String) :
    Option JwtPayload :=
  jwtDecode token secret now

/-- Outcome of the CSRF double-submit check. -/
inductive CsrfResult where
  | ok
  | csrfMismatch
  deriving Repr, DecidableEq

/-- CSRF verification, from `app/security.py` `verify_csrf`: pure
comparison of the cookie-held value against the form-submitted value;
no server-side store is consulted. Raises 403 when either side is
missing (Python-falsy) or the two differ. -/
def verify_csrf (cookie_token : Option String) (form_token : String) :
    CsrfResult :=
  if ¬ pyTruthy cookie_token ∨ form_token == "" ∨
      cookie_token.getD "" ≠ form_token then
    .csrfMismatch
  else .ok

/-- Per-minute rate limit on `POST /auth/register`
(`app/routers/auth.py`, decorator limit 5/minute). -/
def apiRegisterLimitPerMinute : Nat := 5

/-- Per-minute rate limit on `POST /auth/token`
(`app/routers/auth.py`, decorator limit 5/minute). -/
def apiLoginLimitPerMinute : Nat := 5

/-- Per-minute rate limit on `POST /auth/login`
(`app/routers/ui.py`, decorator limit 10/minute). -/
def uiLoginLimitPerMinute : Nat := 10

/-- Per-minute rate limit on `POST /auth/signup`
(`app/routers/ui.py`, decorator limit 5/minute). -/
def uiSignupLimitPerMinute : Nat := 5

/-- Per-minute rate limit on `POST /auth/forgot`
(`app/routers/ui.py`, decorator limit 3/minute). -/
def uiForgotLimitPerMinute : Nat := 3

/-- Per-minute rate limit on `POST /auth/reset`
(`app/routers/ui.py`, decorator limit 5/minute). -/
def uiResetLimitPerMinute : Nat := 5

/-- Fixed-window limiter check (slowapi): with `priorCount` requests
already made by this client key in the current window, a further
request is allowed when the count is still below the limit. -/
def rateLimitAllows (priorCount limit : Nat) : Bool :=
  priorCount < limit

/-- Seconds of session-token lifetime chosen by the web login handler
(`app/routers/ui.py` `handle_login`): 30 days when the remember-me form
field equals the string true, else the configured default minutes. -/
def loginTtlSeconds (remember_me : Option String) : Int :=
  if remember_me == some "true" then 30 * 86400
  else 60 * access_token_expire_minutes

/-- Outcome of the web login handler. `success` carries the minted
token and the max-age in seconds set on the session cookie. -/
inductive LoginOutcome where
  | rateLimited
  | csrfError
  | authError
  | success (token : Jwt) (cookieMaxAge : Int)
  deriving Repr, DecidableEq

/-- Web login handler, from `app/routers/ui.py` `handle_login`:
rate-limit gate, CSRF check, credential check, then mint a token whose
expiry delta equals the chosen TTL and set the cookie with
`max_age = int(expires.total_seconds())`. The token is minted by
`manager.create_access_token` (fastapi-login) with the user email as
subject and the explicit expiry delta, modelled as `jwtEncode`. -/
def handle_login (st : DbState) (priorCount : Nat)
    (cookieCsrf : Option String) (csrf email password : String)
    (remember_me : Option String) (now : Int) (secret : String) :
    LoginOutcome :=
  if ¬ rateLimitAllows priorCount uiLoginLimitPerMinute then .rateLimited
  else match verify_csrf cookieCsrf csrf with
  | .csrfMismatch => .csrfError
  | .ok =>
    match authenticate_user st.users email password with
    | none => .authError
    | some user =>
      let expires := loginTtlSeconds remember_me
      .success (jwtEncode ⟨user.email, now + expires⟩ secret) expires

/-- Response of the forgot-password handler. -/
inductive ForgotOutcome where
  | rateLimited
  | csrfError
  | success (message : String)
  deriving Repr, DecidableEq

/-- The generic message rendered by `fragments/forgot_success.html`. -/
def forgotSuccessMessage : String :=
  "If an account exists with that email, you will receive a password reset link."

/-- Full effect of one forgot-password request: the rendered response,
the resulting store, the background email tasks queued (recipient, raw
secret, display name), and the raw secrets written to the application
log by the fallback branch. -/
structure ForgotEffects where
  outcome : ForgotOutcome
  state : DbState
  emailsQueued : List (String × String × String)
  loggedSecrets : List String
  deriving Repr, DecidableEq

/-- Forgot-password handler, from `app/routers/ui.py`
`handle_forgot_password`: rate-limit gate, CSRF check; then look up the
user; if present, persist a token row holding the SHA-256 of the fresh
raw secret with a one-hour expiry, and either queue the reset email
(when an email client is configured) or log the reset link containing
the raw secret (fallback branch); in every business-path case return
the same success fragment. `raw_token` stands for
`secrets.token_urlsafe(32)` and `nextTokenId` for the row id the store
assigns. -/
def handle_forgot_password (st : DbState) (priorCount : Nat)
    (cookieCsrf : Option String) (csrf email raw_token : String)
    (nextTokenId : Nat) (emailConfigured : Bool) (now : Int) :
    ForgotEffects :=
  if ¬ rateLimitAllows priorCount uiForgotLimitPerMinute then
    ⟨.rateLimited, st, [], []⟩
  else match verify_csrf cookieCsrf csrf with
  | .csrfMismatch => ⟨.csrfError, st, [], []⟩
  | .ok =>
    match findUserByEmail st.users email with
    | none => ⟨.success forgotSuccessMessage, st, [], []⟩
    | some user =>
      let reset_token : PasswordResetToken :=
        { id := nextTokenId
          user_id := user.id
          token_hash := sha256_hex raw_token
          expires_at := now + 3600
          used_at := none
          created_at := now }
      let st' : DbState := { st with tokens := st.tokens ++ [reset_token] }
      if emailConfigured then
        ⟨.success forgotSuccessMessage, st',
          [(email, raw_token, user.full_name)], []⟩
      else
        ⟨.success forgotSuccessMessage, st', [], [raw_token]⟩

/-- Lookup of a redeemable token row, from the query in
`app/routers/ui.py` `handle_reset_password`: match on the hash, unused
(`used_at IS NULL`), and unexpired (`expires_at > now`, strict). -/
def findActiveResetToken (tokens : List PasswordResetToken)
    (h : String) (now : Int) : Option PasswordResetToken :=
  tokens.find? (fun t =>
    t.token_hash == h && t.used_at == none && now < t.expires_at)

/-- Overwrite the hashed password of the user with the given id
(the ORM mutation `user.hashed_password = ...` followed by commit). -/
def setPassword (users : List User) (uid : Nat) (newHash : String) :
    List User :=
  users.map (fun u =>
    if u.id == uid then { u with hashed_password := newHash } else u)

/-- Set `used_at` on the token row with the given id (the ORM mutation
`reset_token.used_at = ...` followed by commit). -/
def markUsed (tokens : List PasswordResetToken) (tid : Nat) (now : Int) :
    List PasswordResetToken :=
  tokens.map (fun t =>
    if t.id == tid then { t with used_at := some now } else t)

/-- Outcome of the reset-password handler. -/
inductive ResetOutcome where
  | rateLimited
  | csrfError
  | invalidToken
  | userNotFound
  | success
  deriving Repr, DecidableEq

/-- Reset-password handler, from `app/routers/ui.py`
`handle_reset_password`: rate-limit gate, CSRF check; hash the
presented secret and look up an unused, unexpired row; reject leaving
the store untouched when none matches or the owning user is missing;
otherwise overwrite the password hash and set `used_at`, committed
together. -/
def handle_reset_password (st : DbState) (priorCount : Nat)
    (cookieCsrf : Option String) (csrf token new_password : String)
    (now : Int) : ResetOutcome × DbState :=
  if ¬ rateLimitAllows priorCount uiResetLimitPerMinute then
    (.rateLimited, st)
  else match verify_csrf cookieCsrf csrf with
  | .csrfMismatch => (.csrfError, st)
  | .ok =>
    match findActiveResetToken st.tokens (sha256_hex token) now with
    | none => (.invalidToken, st)
    | some reset_token =>
      match getUserById st.users reset_token.user_id with
      | none => (.userNotFound, st)
      | some user =>
        (.success,
          { users := setPassword st.users user.id
              (get_password_hash new_password)
            tokens := markUsed st.tokens reset_token.id now })

/-- Profile-update request body, from `app/schemas.py` `UserUpdate`. -/
structure UserUpdate where
  email : Option String
  full_name : Option String
  deriving Repr, DecidableEq

/-- Outcome of the profile-update handler: the 400 duplicate-email
conflict, or the committed user record. -/
inductive UpdateResult where
  | duplicateEmail
  | ok (user : User)
  deriving Repr, DecidableEq

/-- Profile-update handler, from `app/routers/users.py`
`update_user_me`: when an email is supplied (Python-truthy), a conflict
is raised exactly when some user with a different id already has that
email; otherwise the email and, independently, the full name (when not
None) are overwritten on the current record. -/
def update_user_me (users : List User) (current : User)
    (upd : UserUpdate) : UpdateResult :=
  if pyTruthy upd.email then
    match users.find? (fun u =>
        u.email == upd.email.getD "" && u.id != current.id) with
    | some _ => .duplicateEmail
    | none =>
      .ok { current with
        email := upd.email.getD ""
        full_name := upd.full_name.getD current.full_name }
  else
    .ok { current with
      full_name := upd.full_name.getD current.full_name }

/-- Uniqueness of `token_hash` across the reset-token table
(`PasswordResetToken.token_hash` is declared `unique=True` in
`app/models.py`): two stored rows with the same hash are the same row. -/
def uniqueTokenHashes (tokens : List PasswordResetToken) : Prop :=
  ∀ t1 ∈ tokens, ∀ t2 ∈ tokens, t1.token_hash = t2.token_hash → t1 = t2

/-- Sample registered, active user for concrete witnesses. -/
def alice : User :=
  { id := 1
    email := "alice@example.com"
    full_name := "Alice"
    hashed_password := get_password_hash "pw123456"
    is_active := true
    is_superuser := false }

/-- Sample store holding just `alice`. -/
def sampleState : DbState := { users := [alice], tokens := [] }

/-- Sample unconsumed reset-token row for `alice`, hash of the raw
secret RAWSECRET, expiring at time 3600. -/
def sampleResetToken : PasswordResetToken :=
  { id := 7
    user_id := 1
    token_hash := sha256_hex "RAWSECRET"
    expires_at := 3600
    used_at := none
    created_at := 0 }

/-- Sample store holding `alice` and her unconsumed reset token. -/
def resetState : DbState :=
  { users := [alice], tokens := [sampleResetToken] }

/-- The store after redeeming RAWSECRET at time 0 in `resetState`. -/
def redeemedState : DbState :=
  (handle_reset_password resetState 0 (some "c") "c" "RAWSECRET"
    "newpw9" 0).2

/-- ASCII lowercasing of one character, kernel-computable. -/
def lowerChar (c : Char) : Char :=
  if c.isUpper then Char.ofNat (c.toNat + 32) else c

/-- Modelled from the spec: the case-normalization of an email address
that section 3 attributes to the login key ("unique case-normalized
email") and section 4.4 to the authenticate lookup. No such
normalization exists anywhere in `src/app` — the source compares the
submitted string exactly — so this definition follows the spec's words
only, to be compared against the source's `findUserByEmail`. -/
def normalizeEmail (email : String) : String :=
  ⟨email.data.map lowerChar⟩

/-- Hash abstraction is never the identity: the stored SHA-256 digest
of a secret differs from the raw secret. -/
theorem sha256_hex_ne (s : String) : sha256_hex s ≠ s := by
  intro h
  have hlen := congrArg (fun t => t.data.length) h
  simp [sha256_hex] at hlen
  omega

/-- C4 counterexample: the submitted email Alice@example.com
case-normalizes to alice's stored login email, her password verifies
and her account is active, so the claim's normalized-email lookup
implies a successful authentication returning her record — yet the
code matches the submitted string exactly and returns `none`. -/
theorem C4_counterexample :
    findUserByEmail [alice] (normalizeEmail "Alice@example.com") =
      some alice ∧
    verify_password "pw123456" alice.hashed_password = true ∧
    alice.is_active = true ∧
    authenticate_user [alice] "Alice@example.com" "pw123456" =
      none := by
  decide

/-- C4 amended: authenticate looks the user up by exact match on the
submitted email string (no normalization is applied anywhere in the
source) and collapses the three failure cases — no such user, password
does not verify, inactive account — into the same `none`; on success
it returns the full stored user record. -/
theorem C4_authenticate_collapsed_failures (users : List User)
    (email password : String) :
    (authenticate_user users email password = none ↔
      findUserByEmail users email = none ∨
      ∃ u, findUserByEmail users email = some u ∧
        (verify_password password u.hashed_password = false ∨
          u.is_active = false)) ∧
    (∀ u, authenticate_user users email password = some u →
      findUserByEmail users email = some u ∧
      verify_password password u.hashed_password = true ∧
      u.is_active = true) := by
  unfold authenticate_user
  cases hfind : findUserByEmail users email with
  | none => simp
  | some u =>
    constructor
    · by_cases hv : verify_password password u.hashed_password <;>
        by_cases ha : u.is_active <;> simp [hv, ha]
    · intro v hv
      by_cases h1 : verify_password password u.hashed_password <;>
        by_cases h2 : u.is_active <;> simp [h1, h2] at hv
      simp [← hv, h1, h2]

/-- C4 witness: concrete success and concrete collapsed failures. -/
theorem C4_witness :
    authenticate_user [alice] "alice@example.com" "pw123456" =
      some alice ∧
    authenticate_user [alice] "alice@example.com" "wrong" = none :=
  ⟨by
    have h := (C4_authenticate_collapsed_failures [alice]
      "alice@example.com" "pw123456").2
    cases hres : authenticate_user [alice] "alice@example.com" "pw123456"
      with
    | none =>
      exact absurd hres (by decide)
    | some v =>
      have hv := h v hres
      have : v = alice := by
        have := hv.1
        simp [findUserByEmail, alice] at this
        exact this.symm
      rw [this],
   by
    have h := (C4_authenticate_collapsed_failures [alice]
      "alice@example.com" "wrong").1
    exact h.mpr (Or.inr ⟨alice, by decide, Or.inl (by decide)⟩)⟩

/-- C5: a token issued for subject s with TTL t parses back to s at any
time strictly before issuance plus t; at or after that instant, under a
wrong key, or on structurally malformed input, parsing yields `none` —
a total function, never a partial result. -/
theorem C5_token_roundtrip (s secret : String) (t now now2 : Int)
    (ht : 0 < t) :
    (now2 < now + t →
      ∃ p, decode_token (create_access_token s (some t) now secret)
        now2 secret = some p ∧ p.sub = s) ∧
    (now + t ≤ now2 →
      decode_token (create_access_token s (some t) now secret)
        now2 secret = none) ∧
    (∀ p k, k ≠ secret →
      decode_token (Jwt.signed p k) now2 secret = none) ∧
    (∀ r, decode_token (Jwt.malformed r) now2 secret = none) := by
  refine ⟨?_, ?_, ?_, ?_⟩
  · intro hlt
    exact ⟨⟨s, now + t⟩,
      by simp [decode_token, create_access_token, jwtEncode, jwtDecode,
        hlt], rfl⟩
  · intro hge
    simp [decode_token, create_access_token, jwtEncode, jwtDecode]
    omega
  · intro p k hk
    simp [decode_token, jwtDecode]
    intro habs
    exact absurd habs hk
  · intro r
    simp [decode_token, jwtDecode]

/-- C5 witness: subject alice, TTL 60 seconds, parses at time 59 and is
rejected at time 60 and under the wrong key and when malformed. -/
theorem C5_witness :
    0 < (60 : Int) ∧
    (∃ p, decode_token (create_access_token "alice" (some 60) 0 "k1")
      59 "k1" = some p ∧ p.sub = "alice") ∧
    decode_token (create_access_token "alice" (some 60) 0 "k1")
      60 "k1" = none ∧
    decode_token (Jwt.signed ⟨"alice", 99⟩ "k2") 59 "k1" = none ∧
    decode_token (Jwt.malformed "garbage") 59 "k1" = none := by
  have h59 := C5_token_roundtrip "alice" "k1" 60 0 59 (by decide)
  have h60 := C5_token_roundtrip "alice" "k1" 60 0 60 (by decide)
  exact ⟨by decide, h59.1 (by decide), h60.2.1 (by decide),
    h59.2.2.1 ⟨"alice", 99⟩ "k2" (by decide), h59.2.2.2 "garbage"⟩

/-- C6: the CSRF double-submit check succeeds exactly when the cookie
value is present (non-empty) and byte-equal to the submitted form
value, hence it fails with the 403 mismatch whenever either side is
absent or the two differ; the check consults nothing but the two
values. -/
theorem C6_csrf_double_submit (cookie : Option String) (form : String) :
    (verify_csrf cookie form = .ok ↔ cookie = some form ∧ form ≠ "") ∧
    (verify_csrf cookie form = .csrfMismatch ↔
      ¬ (cookie = some form ∧ form ≠ "")) := by
  unfold verify_csrf pyTruthy
  cases cookie with
  | none => simp
  | some c =>
    by_cases hc : c = "" <;> by_cases hf : form = "" <;>
      by_cases he : c = form <;> simp [hc, hf, he] <;> simp_all

/-- C6 witness: a matching non-empty pair passes; a missing cookie, a
missing form value, and a differing pair each fail. -/
theorem C6_witness :
    verify_csrf (some "tok1") "tok1" = .ok ∧
    verify_csrf none "tok1" = .csrfMismatch ∧
    verify_csrf (some "tok1") "" = .csrfMismatch ∧
    verify_csrf (some "tok1") "tok2" = .csrfMismatch :=
  ⟨(C6_csrf_double_submit (some "tok1") "tok1").1.mpr
      ⟨rfl, by decide⟩,
    (C6_csrf_double_submit none "tok1").2.mpr (by simp),
    (C6_csrf_double_submit (some "tok1") "").2.mpr (by simp),
    (C6_csrf_double_submit (some "tok1") "tok2").2.mpr (by simp)⟩

/-- C8: on a successful web login the chosen TTL is 30 days with
remember-me and the configured 30-minute default otherwise, the cookie
max-age equals that TTL exactly, and the minted token's embedded expiry
is issuance time plus that same TTL. -/
theorem C8_login_ttl_matches_cookie (st : DbState) (priorCount : Nat)
    (cookieCsrf : Option String) (csrf email password : String)
    (remember_me : Option String) (now : Int) (secret : String)
    (tok : Jwt) (maxAge : Int)
    (h : handle_login st priorCount cookieCsrf csrf email password
      remember_me now secret = .success tok maxAge) :
    maxAge = (if remember_me = some "true" then 30 * 86400
      else 30 * 60) ∧
    ∃ p, tok = Jwt.signed p secret ∧ p.exp = now + maxAge := by
  unfold handle_login at h
  split at h
  · simp at h
  · split at h
    · simp at h
    · split at h
      · simp at h
      · rename_i user huser
        simp only [jwtEncode, LoginOutcome.success.injEq] at h
        obtain ⟨htok, hage⟩ := h
        constructor
        · rw [← hage]
          unfold loginTtlSeconds access_token_expire_minutes
          by_cases hr : remember_me = some "true" <;> simp [hr]
        · exact ⟨⟨user.email, now + loginTtlSeconds remember_me⟩,
            htok.symm, by rw [← hage]⟩

/-- C8 witness: a concrete remember-me login yields a 30-day cookie
max-age equal to the token's embedded expiry delta. -/
theorem C8_witness :
    (2592000 : Int) = (if (some "true" : Option String) = some "true"
      then 30 * 86400 else 30 * 60) ∧
    ∃ p, Jwt.signed (⟨"alice@example.com", 2592000⟩ : JwtPayload) "k" =
      Jwt.signed p "k" ∧ p.exp = (0 : Int) + 2592000 :=
  C8_login_ttl_matches_cookie sampleState 0 (some "c") "c"
    "alice@example.com" "pw123456" (some "true") 0 "k"
    (Jwt.signed ⟨"alice@example.com", 2592000⟩ "k") 2592000 (by decide)

/-- C9 counterexample: the reset-request endpoint is limited to 3 per
minute, not 5 — the 4th rapid reset-request is already rejected — and
with the login limit at 10 per minute the 6th rapid login attempt with
correct credentials is not rate-limited. -/
theorem C9_counterexample :
    uiForgotLimitPerMinute = 3 ∧ ¬ uiForgotLimitPerMinute = 5 ∧
    (handle_forgot_password sampleState 3 (some "c") "c"
      "alice@example.com" "RAWSECRET" 1 true 0).outcome =
      .rateLimited ∧
    handle_login sampleState 5 (some "c") "c" "alice@example.com"
      "pw123456" none 0 "k" ≠ .rateLimited := by decide

/-- C9 amended: the limits are 5/minute for registration (API and web
signup), 3/minute for reset-request, 10/minute for web login and
5/minute for API login; a request over its limit is rejected with the
distinct rate-limited outcome before any business logic runs — the
store is untouched and no credential look-up happens, whatever the
credentials — and that outcome is a different kind from an
authentication failure. -/
theorem C9_rate_limit_gate (st : DbState) (pcL pcF : Nat)
    (ck : Option String) (cs email password raw : String)
    (rm : Option String) (tid : Nat) (cfg : Bool) (now : Int)
    (secret : String)
    (hL : uiLoginLimitPerMinute ≤ pcL)
    (hF : uiForgotLimitPerMinute ≤ pcF) :
    apiRegisterLimitPerMinute = 5 ∧ uiSignupLimitPerMinute = 5 ∧
    uiForgotLimitPerMinute = 3 ∧ uiLoginLimitPerMinute = 10 ∧
    apiLoginLimitPerMinute = 5 ∧
    handle_login st pcL ck cs email password rm now secret =
      .rateLimited ∧
    handle_forgot_password st pcF ck cs email raw tid cfg now =
      ⟨.rateLimited, st, [], []⟩ ∧
    LoginOutcome.rateLimited ≠ LoginOutcome.authError := by
  have hLb : ¬ rateLimitAllows pcL uiLoginLimitPerMinute := by
    simp [rateLimitAllows]
    omega
  have hFb : ¬ rateLimitAllows pcF uiForgotLimitPerMinute := by
    simp [rateLimitAllows]
    omega
  refine ⟨rfl, rfl, rfl, rfl, rfl, ?_, ?_, by intro hab; cases hab⟩
  · simp [handle_login, hLb]
  · simp [handle_forgot_password, hFb]

/-- C9 witness: the 11th rapid web login attempt and the 4th rapid
reset request are both rejected as rate-limited. -/
theorem C9_witness :
    apiRegisterLimitPerMinute = 5 ∧ uiSignupLimitPerMinute = 5 ∧
    uiForgotLimitPerMinute = 3 ∧ uiLoginLimitPerMinute = 10 ∧
    apiLoginLimitPerMinute = 5 ∧
    handle_login sampleState 10 (some "c") "c" "alice@example.com"
      "pw123456" none 0 "k" = .rateLimited ∧
    handle_forgot_password sampleState 3 (some "c") "c"
      "alice@example.com" "RAWSECRET" 1 true 0 =
      ⟨.rateLimited, sampleState, [], []⟩ ∧
    LoginOutcome.rateLimited ≠ LoginOutcome.authError :=
  C9_rate_limit_gate sampleState 10 3 (some "c") "c"
    "alice@example.com" "pw123456" "RAWSECRET" none 1 true 0 "k"
    (by decide) (by decide)

/-- C10: the duplicate-email conflict on profile update is raised
exactly when a supplied (truthy) email already belongs to a user with a
different id; setting the email to the user's own current email
succeeds and returns the record unchanged; and every successful update
changes nothing besides the explicitly supplied email and full name. -/
theorem C10_profile_update_conflict (users : List User) (current : User)
    (upd : UserUpdate)
    (hself : ∀ u ∈ users, u.email = current.email → u.id = current.id) :
    (update_user_me users current upd = .duplicateEmail ↔
      pyTruthy upd.email = true ∧
      ∃ u ∈ users, u.email = upd.email.getD "" ∧ u.id ≠ current.id) ∧
    (current.email ≠ "" →
      update_user_me users current ⟨some current.email, none⟩ =
        .ok current) ∧
    (∀ v, update_user_me users current upd = .ok v →
      v.id = current.id ∧
      v.hashed_password = current.hashed_password ∧
      v.is_active = current.is_active ∧
      v.is_superuser = current.is_superuser ∧
      v.email = (if pyTruthy upd.email then upd.email.getD ""
        else current.email) ∧
      v.full_name = (upd.full_name.getD current.full_name)) := by
  refine ⟨?_, ?_, ?_⟩
  · unfold update_user_me
    by_cases he : pyTruthy upd.email
    · rw [if_pos he]
      cases hfind : users.find? (fun u =>
          u.email == upd.email.getD "" && u.id != current.id) with
      | none =>
        have hnone := List.find?_eq_none.mp hfind
        simp only [he, true_and]
        constructor
        · intro hab
          simp at hab
        · rintro ⟨u, hu, hmail, hid⟩
          exact absurd (by simp [hmail, hid]) (hnone u hu)
      | some w =>
        have hmem := List.mem_of_find?_eq_some hfind
        have hpred := List.find?_some hfind
        simp only [Bool.and_eq_true, beq_iff_eq, bne_iff_ne] at hpred
        simp only [he, true_and]
        exact ⟨fun _ => ⟨w, hmem, hpred.1, hpred.2⟩, fun _ => trivial⟩
    · rw [if_neg he]
      constructor
      · intro hab
        simp at hab
      · rintro ⟨het, _⟩
        exact absurd het (by simpa using he)
  · intro hne
    unfold update_user_me
    have hp : pyTruthy (some current.email) = true := by
      simp [pyTruthy, hne]
    rw [if_pos hp]
    have hfind : users.find? (fun u =>
        u.email == (some current.email).getD "" &&
          u.id != current.id) = none := by
      apply List.find?_eq_none.mpr
      intro u hu
      simp only [Option.getD_some, Bool.and_eq_true, beq_iff_eq,
        bne_iff_ne, not_and]
      intro hmail
      simp [hself u hu hmail]
    rw [hfind]
    cases current
    rfl
  · intro v hv
    unfold update_user_me at hv
    by_cases he : pyTruthy upd.email
    · rw [if_pos he] at hv
      cases hfind : users.find? (fun u =>
          u.email == upd.email.getD "" && u.id != current.id) with
      | none =>
        rw [hfind] at hv
        simp only [UpdateResult.ok.injEq] at hv
        simp [← hv, he]
      | some w =>
        rw [hfind] at hv
        simp at hv
    · rw [if_neg he] at hv
      simp only [UpdateResult.ok.injEq] at hv
      simp [← hv, he]

/-- C10 witness: alice re-submitting her own email is accepted and her
record is returned unchanged. -/
theorem C10_witness :
    update_user_me [alice] alice ⟨some alice.email, none⟩ =
      .ok alice :=
  (C10_profile_update_conflict [alice] alice ⟨some alice.email, none⟩
    (by decide)).2.1 (by decide)

/-- C2: once past the rate limit and the CSRF check, the forgot-password
handler renders the single generic success fragment whether or not the
email matches a user; the user table is never touched, and the only
state difference is that a matching email appends exactly one new
reset-token row while a non-matching one appends none. -/
theorem C2_enumeration_resistance (st : DbState) (priorCount : Nat)
    (ck : Option String) (cs email raw : String) (tid : Nat)
    (cfg : Bool) (now : Int)
    (hrate : rateLimitAllows priorCount uiForgotLimitPerMinute = true)
    (hcsrf : verify_csrf ck cs = .ok) :
    (handle_forgot_password st priorCount ck cs email raw tid cfg
      now).outcome = .success forgotSuccessMessage ∧
    (handle_forgot_password st priorCount ck cs email raw tid cfg
      now).state.users = st.users ∧
    (findUserByEmail st.users email = none →
      (handle_forgot_password st priorCount ck cs email raw tid cfg
        now).state = st) ∧
    (∀ u, findUserByEmail st.users email = some u →
      (handle_forgot_password st priorCount ck cs email raw tid cfg
        now).state.tokens =
        st.tokens ++ [⟨tid, u.id, sha256_hex raw, now + 3600, none,
          now⟩]) := by
  unfold handle_forgot_password
  rw [if_neg (by simp [hrate]), hcsrf]
  cases hfind : findUserByEmail st.users email with
  | none => simp
  | some u =>
    cases cfg <;> refine ⟨rfl, rfl, fun hab => ?_, fun v hv => ?_⟩
    · cases hab
    · cases hv
      rfl
    · cases hab
    · cases hv
      rfl

/-- C2 witness: the response for a registered and an unregistered email
is the same generic success; only the former adds one token row. -/
theorem C2_witness :
    (handle_forgot_password sampleState 0 (some "c") "c"
      "alice@example.com" "RAWSECRET" 1 true 0).outcome =
      .success forgotSuccessMessage ∧
    (handle_forgot_password sampleState 0 (some "c") "c"
      "nobody@example.com" "RAWSECRET" 1 true 0).outcome =
      .success forgotSuccessMessage ∧
    (handle_forgot_password sampleState 0 (some "c") "c"
      "nobody@example.com" "RAWSECRET" 1 true 0).state = sampleState ∧
    (handle_forgot_password sampleState 0 (some "c") "c"
      "alice@example.com" "RAWSECRET" 1 true 0).state.tokens =
      sampleState.tokens ++
        [⟨1, alice.id, sha256_hex "RAWSECRET", 0 + 3600, none, 0⟩] := by
  have hA := C2_enumeration_resistance sampleState 0 (some "c") "c"
    "alice@example.com" "RAWSECRET" 1 true 0 (by decide) (by decide)
  have hN := C2_enumeration_resistance sampleState 0 (some "c") "c"
    "nobody@example.com" "RAWSECRET" 1 true 0 (by decide) (by decide)
  exact ⟨hA.1, hN.1, hN.2.2.1 (by decide),
    hA.2.2.2 alice (by decide)⟩

/-- C7 counterexample: with no email client configured, a matching
forgot-password request writes the raw reset secret into the
application log (the fallback reset-link log line), while still
reporting generic success. -/
theorem C7_counterexample :
    (handle_forgot_password sampleState 0 (some "c") "c"
      "alice@example.com" "RAWSECRET" 1 false 0).loggedSecrets =
      ["RAWSECRET"] ∧
    (handle_forgot_password sampleState 0 (some "c") "c"
      "alice@example.com" "RAWSECRET" 1 false 0).outcome =
      .success forgotSuccessMessage := by decide

/-- C7 amended: the stored reset-token row holds only the SHA-256 hash
of the raw secret with a one-hour expiry — never the raw secret itself,
which differs from its hash; the raw secret is handed to the notifier
when an email client is configured and is not logged, but when none is
configured it is written to the application log as a fallback reset
link. -/
theorem C7_stored_hash_only (st : DbState) (priorCount : Nat)
    (ck : Option String) (cs email raw : String) (tid : Nat)
    (cfg : Bool) (now : Int) (u : User)
    (hrate : rateLimitAllows priorCount uiForgotLimitPerMinute = true)
    (hcsrf : verify_csrf ck cs = .ok)
    (hu : findUserByEmail st.users email = some u) :
    (handle_forgot_password st priorCount ck cs email raw tid cfg
      now).state.tokens =
      st.tokens ++ [⟨tid, u.id, sha256_hex raw, now + 3600, none,
        now⟩] ∧
    sha256_hex raw ≠ raw ∧
    (cfg = true →
      (handle_forgot_password st priorCount ck cs email raw tid cfg
        now).loggedSecrets = [] ∧
      (handle_forgot_password st priorCount ck cs email raw tid cfg
        now).emailsQueued = [(email, raw, u.full_name)]) ∧
    (cfg = false →
      (handle_forgot_password st priorCount ck cs email raw tid cfg
        now).loggedSecrets = [raw]) := by
  unfold handle_forgot_password
  rw [if_neg (by simp [hrate]), hcsrf, hu]
  cases cfg <;>
    exact ⟨rfl, sha256_hex_ne raw, by simp, by simp⟩

/-- C7 witness: concrete run with an email client configured — the row
stores the hash with a one-hour expiry, nothing is logged, and the raw
secret goes only to the notifier queue. -/
theorem C7_witness :
    (handle_forgot_password sampleState 0 (some "c") "c"
      "alice@example.com" "RAWSECRET" 1 true 0).state.tokens =
      sampleState.tokens ++
        [⟨1, alice.id, sha256_hex "RAWSECRET", 0 + 3600, none, 0⟩] ∧
    sha256_hex "RAWSECRET" ≠ "RAWSECRET" ∧
    ((true : Bool) = true →
      (handle_forgot_password sampleState 0 (some "c") "c"
        "alice@example.com" "RAWSECRET" 1 true 0).loggedSecrets = [] ∧
      (handle_forgot_password sampleState 0 (some "c") "c"
        "alice@example.com" "RAWSECRET" 1 true 0).emailsQueued =
        [("alice@example.com", "RAWSECRET", alice.full_name)]) ∧
    ((true : Bool) = false →
      (handle_forgot_password sampleState 0 (some "c") "c"
        "alice@example.com" "RAWSECRET" 1 true 0).loggedSecrets =
        ["RAWSECRET"]) :=
  C7_stored_hash_only sampleState 0 (some "c") "c" "alice@example.com"
    "RAWSECRET" 1 true 0 alice (by decide) (by decide) (by decide)

/-- C3: a rejected redeem attempt — rate-limited, CSRF failure, unknown
or expired or already-consumed secret, or missing owner — returns the
store exactly as it was; a successful redeem returns the store with the
owner's password hash overwritten and the token's consumed-at set, both
applied in the same commit. -/
theorem C3_redeem_atomicity (st : DbState) (priorCount : Nat)
    (ck : Option String) (cs raw pw : String) (now : Int) :
    ((handle_reset_password st priorCount ck cs raw pw now).1 ≠
        .success →
      (handle_reset_password st priorCount ck cs raw pw now).2 = st) ∧
    ((handle_reset_password st priorCount ck cs raw pw now).1 =
        .success →
      ∃ rt u,
        findActiveResetToken st.tokens (sha256_hex raw) now = some rt ∧
        getUserById st.users rt.user_id = some u ∧
        (handle_reset_password st priorCount ck cs raw pw now).2 =
          ⟨setPassword st.users u.id (get_password_hash pw),
            markUsed st.tokens rt.id now⟩) := by
  unfold handle_reset_password
  split
  · exact ⟨fun _ => rfl, fun hab => nomatch hab⟩
  · split
    · exact ⟨fun _ => rfl, fun hab => nomatch hab⟩
    · split
      · exact ⟨fun _ => rfl, fun hab => nomatch hab⟩
      · rename_i rt hfind
        split
        · exact ⟨fun _ => rfl, fun hab => nomatch hab⟩
        · rename_i u huser
          exact ⟨fun hab => absurd rfl hab,
            fun _ => ⟨rt, u, hfind, huser, rfl⟩⟩

/-- C3 witness: a wrong secret leaves the concrete store untouched; the
right secret moves the store to the state with the new password hash
and the consumed-at mark set together. -/
theorem C3_witness :
    (handle_reset_password resetState 0 (some "c") "c" "WRONG" "npw"
      0).2 = resetState ∧
    ∃ rt u,
      findActiveResetToken resetState.tokens (sha256_hex "RAWSECRET")
        0 = some rt ∧
      getUserById resetState.users rt.user_id = some u ∧
      (handle_reset_password resetState 0 (some "c") "c" "RAWSECRET"
        "newpw9" 0).2 =
        ⟨setPassword resetState.users u.id (get_password_hash "newpw9"),
          markUsed resetState.tokens rt.id 0⟩ :=
  ⟨(C3_redeem_atomicity resetState 0 (some "c") "c" "WRONG" "npw"
      0).1 (by decide),
    (C3_redeem_atomicity resetState 0 (some "c") "c" "RAWSECRET"
      "newpw9" 0).2 (by decide)⟩

/-- After a redeemed token row is marked consumed, no row with the same
hash is redeemable at any later (or any) time, given the store's
uniqueness of token hashes. -/
theorem find_none_after_markUsed (tokens : List PasswordResetToken)
    (rt : PasswordResetToken) (h : String) (now1 now2 : Int)
    (huniq : uniqueTokenHashes tokens)
    (hfind : findActiveResetToken tokens h now1 = some rt) :
    findActiveResetToken (markUsed tokens rt.id now1) h now2 = none := by
  have hmem := List.mem_of_find?_eq_some hfind
  have hpred := List.find?_some hfind
  simp only [Bool.and_eq_true, beq_iff_eq, decide_eq_true_eq] at hpred
  have hhash : rt.token_hash = h := by tauto
  apply List.find?_eq_none.mpr
  intro x hx
  simp only [markUsed, List.mem_map] at hx
  obtain ⟨t, htmem, rfl⟩ := hx
  by_cases hth : t.token_hash = h
  · have hteq : t = rt := huniq t htmem rt hmem (by
      rw [hth, hpred.1.1])
    subst hteq
    simp
  · by_cases hid : t.id = rt.id <;> simp [hid, hth]

/-- C1: once a redeem call with a raw secret succeeds, every subsequent
redeem call presenting the same secret — whatever its CSRF data,
client, new password, or time — is rejected and returns the store
(users' password hashes included) exactly as the successful call left
it. Requires the store invariant that token hashes are unique. -/
theorem C1_redemption_at_most_once (st : DbState) (pc1 pc2 : Nat)
    (ck1 ck2 : Option String) (cs1 cs2 raw pw1 pw2 : String)
    (now1 now2 : Int) (st1 : DbState)
    (huniq : uniqueTokenHashes st.tokens)
    (h1 : handle_reset_password st pc1 ck1 cs1 raw pw1 now1 =
      (.success, st1)) :
    (handle_reset_password st1 pc2 ck2 cs2 raw pw2 now2).1 ≠
      .success ∧
    (handle_reset_password st1 pc2 ck2 cs2 raw pw2 now2).2 = st1 := by
  unfold handle_reset_password at h1
  split at h1
  · exact absurd h1 (by simp)
  · split at h1
    · exact absurd h1 (by simp)
    · split at h1
      · exact absurd h1 (by simp)
      · rename_i rt hfind
        split at h1
        · exact absurd h1 (by simp)
        · rename_i u huser
          simp only [Prod.mk.injEq, true_and] at h1
          have htok : st1.tokens = markUsed st.tokens rt.id now1 := by
            rw [← h1]
          have hnone : findActiveResetToken st1.tokens (sha256_hex raw)
              now2 = none := by
            rw [htok]
            exact find_none_after_markUsed st.tokens rt (sha256_hex raw)
              now1 now2 huniq hfind
          unfold handle_reset_password
          split
          · exact ⟨fun hab => (nomatch hab), rfl⟩
          · split
            · exact ⟨fun hab => (nomatch hab), rfl⟩
            · rw [hnone]
              exact ⟨fun hab => (nomatch hab), rfl⟩

/-- C1 witness: redeeming the concrete token succeeds once; the same
secret presented again is rejected and the store is unchanged from the
post-redeem state. -/
theorem C1_witness :
    (handle_reset_password redeemedState 0 (some "c") "c" "RAWSECRET"
      "other" 1).1 ≠ .success ∧
    (handle_reset_password redeemedState 0 (some "c") "c" "RAWSECRET"
      "other" 1).2 = redeemedState :=
  C1_redemption_at_most_once resetState 0 0 (some "c") (some "c") "c"
    "c" "RAWSECRET" "newpw9" "other" 0 1 redeemedState
    (by
      intro t1 ht1 t2 ht2 hh
      have e1 : t1 = sampleResetToken := by simpa [resetState] using ht1
      have e2 : t2 = sampleResetToken := by simpa [resetState] using ht2
      rw [e1, e2])
    (by decide)
